import Mathlib

/-!
Shallow embedding of `asana_deps_graph.py`: the task data model and the two
renderers (`Graphviz`, dialect A, and `Mermaid`, dialect B).

Python dicts are modelled as insertion-ordered association lists
(`List (String × String)`), where updating an existing key keeps its
position (Python `dict.__ior__` semantics).  The task collection
`dict[str, Task]` is modelled as the insertion-ordered list of its values,
with lookup by the `id` field; a Python `KeyError` (dict subscript on a
missing key) is modelled by `Option`: `none` is the unhandled lookup
failure aborting the generator.
-/

namespace AsanaDeps

/-- Embeds the `Task` NamedTuple of the source. -/
structure Task where
  id : String
  name : String
  blocked_by : List String
  is_milestone : Bool
  is_completed : Bool
deriving DecidableEq, Repr

/-- The task collection: the values of the `dict[str, Task]`, in insertion
order. -/
abbrev TaskMap := List Task

/-- Embeds `tasks[key]` on the id-keyed dict: the first task whose `id`
matches, `none` when the key is absent (Python raises `KeyError`). -/
def lookupTask (tasks : TaskMap) (k : String) : Option Task :=
  tasks.find? (fun t => t.id == k)

/-- Embeds Python `str.replace('"', "'")` (single-character pattern, hence a
character-wise map), as applied in `get_tasks` and in both `_render_node`s.
`Char.ofNat 39` is the single-quote character. -/
def sanitize (s : String) : String :=
  ⟨s.data.map (fun c => if c == '"' then Char.ofNat 39 else c)⟩

/-- Insertion-ordered dict update, one key: Python `d |= {k: v}` updates an
existing key in place (keeping its position) and appends a new key at the
end. -/
def dictInsert (d : List (String × String)) (k v : String) :
    List (String × String) :=
  if d.any (fun p => p.1 == k) then
    d.map (fun p => if p.1 == k then (k, v) else p)
  else d ++ [(k, v)]

/-- Value of a key in an insertion-ordered dict. -/
def dictGet (d : List (String × String)) (k : String) : Option String :=
  (d.find? (fun p => p.1 == k)).map (fun p => p.2)

/-- Embeds `', '.join(f'{k}={v}' for k, v in attrs.items())`. -/
def joinAttrs (d : List (String × String)) : String :=
  String.intercalate ", " (d.map (fun p => p.1 ++ "=" ++ p.2))

/-- Embeds `not all(all_tasks[blocker].is_completed for blocker in
task.blocked_by)`: Python `all` consumes the generator until the first
falsy element, so a `KeyError` (here: `none`) is raised only for lookups
actually reached; the result, when no lookup fails, is `some is_blocked`. -/
def is_blocked_check (all_tasks : TaskMap) : List String → Option Bool
  | [] => some false
  | b :: rest =>
    match lookupTask all_tasks b with
    | none => none
    | some t =>
      if t.is_completed then is_blocked_check all_tasks rest else some true

/-- Effect-aware `List.map` into `Option`: the Python generator loop, where
a raised `KeyError` in any element aborts the whole iteration. -/
def mapO (f : α → Option β) : List α → Option (List β)
  | [] => some []
  | a :: as => do
    let b ← f a
    let bs ← mapO f as
    pure (b :: bs)

namespace Graphviz

/-- `Graphviz.MILESTONE_COLOR`. -/
def MILESTONE_COLOR : String := "darkgreen"

/-- `Graphviz.COMPLETED_COLOR`. -/
def COMPLETED_COLOR : String := "gray"

/-- The attribute dict built by `Graphviz._render_node` once `is_blocked`
has been computed (the rest of the body is pure in `task` and
`is_blocked`). -/
def node_attrs (task : Task) (is_blocked : Bool) : List (String × String) :=
  let attrs : List (String × String) := [("style", "rounded")]
  let name := sanitize task.name
  let attrs :=
    if task.is_completed then
      if task.is_milestone then
        dictInsert attrs "label" ("<<S>" ++ name ++ "</S>>")
      else
        dictInsert attrs "label" ("<<S>" ++ name ++ "</S>>")
    else if !is_blocked then
      dictInsert attrs "label" ("<<B>" ++ name ++ "</B>>")
    else
      dictInsert attrs "label" ("\"" ++ name ++ "\"")
  let attrs :=
    if task.is_milestone then
      let attrs := dictInsert attrs "color" MILESTONE_COLOR
      if task.is_completed then
        dictInsert
          (dictInsert (dictInsert attrs "style" "filled")
            "fillcolor" MILESTONE_COLOR)
          "fontcolor" COMPLETED_COLOR
      else
        dictInsert attrs "fontcolor" MILESTONE_COLOR
    else if task.is_completed then
      dictInsert (dictInsert attrs "color" COMPLETED_COLOR)
        "fontcolor" COMPLETED_COLOR
    else attrs
  let attrs :=
    if task.is_milestone then dictInsert attrs "shape" "hexagon"
    else dictInsert attrs "shape" "box"
  attrs

/-- The line returned by `Graphviz._render_node`:
`f'{task.id} [{attributes}];'`. -/
def node_line (task : Task) (is_blocked : Bool) : String :=
  task.id ++ " [" ++ joinAttrs (node_attrs task is_blocked) ++ "];"

/-- Embeds `Graphviz._render_node(task, all_tasks)`; `none` when the
`is_blocked` computation hits a missing blocker id. -/
def render_node (task : Task) (all_tasks : TaskMap) : Option String :=
  (is_blocked_check all_tasks task.blocked_by).map (node_line task)

/-- Embeds `Graphviz._render_edge(start, end)`. -/
def render_edge (start finish : Task) : String :=
  let attrs : List (String × String) :=
    if start.is_completed then [("color", COMPLETED_COLOR)] else []
  start.id ++ " -> " ++ finish.id ++ " [" ++ joinAttrs attrs ++ "];"

/-- Embeds `Graphviz.build_graph_lines`, fully consumed: opening line, one
node line per task, one edge line per `(task, dependency_id)` pair looked
up in the collection, closing line; `none` when any dict subscript raises. -/
def build_graph_lines (tasks : TaskMap) : Option (List String) := do
  let nodes ← mapO (fun t => render_node t tasks) tasks
  let edges ← mapO
    (fun t => mapO
      (fun d => (lookupTask tasks d).map (fun dep => render_edge dep t))
      t.blocked_by)
    tasks
  pure ("digraph\x7b" :: (nodes ++ edges.flatten ++ ["\x7d"]))

end Graphviz

namespace Mermaid

/-- `Mermaid.MILESTONE_STROKE`. -/
def MILESTONE_STROKE : String := "darkgreen"

/-- `Mermaid.MILESTONE_FILL`. -/
def MILESTONE_FILL : String := "darkseagreen"

/-- `Mermaid.COMPLETED_COLOR`. -/
def COMPLETED_COLOR : String := "lightgray"

/-- The label computed by `Mermaid._render_node` once `is_blocked` is
known. -/
def node_label (task : Task) (is_blocked : Bool) : String :=
  let name := sanitize task.name
  if task.is_completed then "fa:fa-check " ++ name
  else if !is_blocked then "**" ++ name ++ "**"
  else "far:fa-hourglass " ++ name

/-- The style dict built by `Mermaid._render_node` once `is_blocked` is
known. -/
def node_style (task : Task) (is_blocked : Bool) : List (String × String) :=
  let style : List (String × String) :=
    if task.is_completed then [("stroke", COMPLETED_COLOR)]
    else if !is_blocked then [("stroke-width", "2px")]
    else []
  let style :=
    if task.is_milestone then
      let style := dictInsert style "stroke" MILESTONE_STROKE
      if task.is_completed then
        dictInsert style "fill" "none"
      else
        dictInsert (dictInsert style "fill" MILESTONE_FILL)
          "stroke-width" "4px"
    else if task.is_completed then
      dictInsert (dictInsert style "stroke" "none") "fill" "none"
    else style
  style

/-- The lines yielded by `Mermaid._render_node` once `is_blocked` is known:
the node line, then the style line only when the style dict is nonempty. -/
def node_block (task : Task) (is_blocked : Bool) : List String :=
  let label := node_label task is_blocked
  let style := node_style task is_blocked
  let opCl : String × String :=
    if task.is_milestone then ("\x7b\x7b", "\x7d\x7d") else ("([", "])")
  let nodeLine := task.id ++ opCl.1 ++ "\"`" ++ label ++ "`\"" ++ opCl.2
  if style.isEmpty then [nodeLine]
  else
    [nodeLine,
     "style " ++ task.id ++ " " ++
       String.intercalate ","
         (style.map (fun p => p.1 ++ ":" ++ p.2)) ++ ";"]

/-- Embeds `Mermaid._render_node(task, all_tasks)`, fully consumed. -/
def render_node (task : Task) (all_tasks : TaskMap) : Option (List String) :=
  (is_blocked_check all_tasks task.blocked_by).map (node_block task)

/-- Embeds `Mermaid._render_edge(start, end)`. -/
def render_edge (start finish : Task) : String :=
  let arrow := if start.is_completed then "-.->" else "-->"
  start.id ++ " " ++ arrow ++ " " ++ finish.id

/-- Embeds `Mermaid.build_graph_lines`, fully consumed: header line, then
per task the node line and optional style line, then one edge line per
`(task, dependency_id)` pair; `none` when any dict subscript raises. -/
def build_graph_lines (tasks : TaskMap) : Option (List String) := do
  let nodeBlocks ← mapO (fun t => render_node t tasks) tasks
  let edges ← mapO
    (fun t => mapO
      (fun d => (lookupTask tasks d).map (fun dep => render_edge dep t))
      t.blocked_by)
    tasks
  pure ("flowchart TB" :: (nodeBlocks.flatten ++ edges.flatten))

end Mermaid

/-! Derived notions: the closed-world invariant of the spec, the
`is_blocked` value as a total function, status classification, and the
expected shapes of both renderers' output. -/

/-- The closed-world invariant: every id referenced in any `blocked_by`
list exists as a key of the collection. -/
def closed_world (tasks : TaskMap) : Bool :=
  tasks.all (fun t => t.blocked_by.all (fun d => (lookupTask tasks d).isSome))

/-- Whether a dependency id names an incomplete blocker; a missing id
counts as incomplete (under `closed_world` that case does not arise). -/
def dep_incomplete (tasks : TaskMap) (d : String) : Bool :=
  match lookupTask tasks d with
  | some u => !u.is_completed
  | none => true

/-- The `is_blocked` value both `_render_node`s compute, as a total
function of the collection and the task. -/
def is_blocked_of (tasks : TaskMap) (t : Task) : Bool :=
  t.blocked_by.any (dep_incomplete tasks)

/-- Status classification of the spec, case 1: completed. -/
def statusCompleted (t : Task) : Bool := t.is_completed

/-- Status classification of the spec, case 2: ready (not completed, all
predecessors completed). -/
def statusReady (tasks : TaskMap) (t : Task) : Bool :=
  !t.is_completed && !(is_blocked_of tasks t)

/-- Status classification of the spec, case 3: blocked (not completed, at
least one predecessor incomplete). -/
def statusBlocked (tasks : TaskMap) (t : Task) : Bool :=
  !t.is_completed && is_blocked_of tasks t

/-- Number of tasks in the collection. -/
def numTasks (tasks : TaskMap) : Nat := tasks.length

/-- Number of dependency edges: one per `(task, blocked_by entry)` pair. -/
def numEdges (tasks : TaskMap) : Nat :=
  (tasks.map (fun t => t.blocked_by.length)).sum

/-- Number of Mermaid style lines emitted: one per task whose style dict is
nonempty. -/
def styleCount (tasks : TaskMap) : Nat :=
  (tasks.map (fun t =>
    if (Mermaid.node_style t (is_blocked_of tasks t)).isEmpty then 0
    else 1)).sum

/-- The Graphviz edge lines, in nested iteration order (dangling ids, which
cannot occur under `closed_world`, are skipped here). -/
def Graphviz.edge_lines (tasks : TaskMap) : List String :=
  (tasks.map (fun t => t.blocked_by.filterMap
    (fun d => (lookupTask tasks d).map
      (fun dep => Graphviz.render_edge dep t)))).flatten

/-- The full expected Graphviz output under `closed_world`: opening line,
node lines in collection order, edge lines in nested order, closing line. -/
def Graphviz.expected_output (tasks : TaskMap) : List String :=
  "digraph\x7b" ::
    (tasks.map (fun t => Graphviz.node_line t (is_blocked_of tasks t)) ++
     Graphviz.edge_lines tasks ++ ["\x7d"])

/-- The Mermaid edge lines, in nested iteration order. -/
def Mermaid.edge_lines (tasks : TaskMap) : List String :=
  (tasks.map (fun t => t.blocked_by.filterMap
    (fun d => (lookupTask tasks d).map
      (fun dep => Mermaid.render_edge dep t)))).flatten

/-- The full expected Mermaid output under `closed_world`: header line,
then per task the node line and its optional style line, then the edge
lines. -/
def Mermaid.expected_output (tasks : TaskMap) : List String :=
  "flowchart TB" ::
    ((tasks.map (fun t =>
        Mermaid.node_block t (is_blocked_of tasks t))).flatten ++
     Mermaid.edge_lines tasks)

/-- Example tasks used at concrete inputs: a completed task with no
predecessors. -/
def tA : Task := ⟨"A", "A", [], false, true⟩

/-- Example: a not-completed task blocked only by the completed `tA`
(hence ready). -/
def tB : Task := ⟨"B", "B", ["A"], false, false⟩

/-- Example: a not-completed milestone with no predecessors (ready). -/
def tM : Task := ⟨"M", "M", [], true, false⟩

/-- Example: a completed milestone. -/
def tCM : Task := ⟨"CM", "CM", [], true, true⟩

/-- Example: a task whose `blocked_by` references the absent id `"Z"`. -/
def tD : Task := ⟨"D", "D", ["Z"], false, false⟩

/-! General lemmas about `mapO`, `filterMap` and the `is_blocked`
computation. -/

theorem mapO_eq_map {α β : Type} (f : α → Option β) (g : α → β)
    (l : List α) (h : ∀ a ∈ l, f a = some (g a)) :
    mapO f l = some (l.map g) := by
  induction l with
  | nil => rfl
  | cons a as ih =>
    have ha := h a (by simp)
    have ih2 := ih (fun x hx => h x (by simp [hx]))
    simp [mapO, ha, ih2]

theorem mapO_eq_none {α β : Type} (f : α → Option β) (l : List α)
    (a : α) (ha : a ∈ l) (hfa : f a = none) : mapO f l = none := by
  induction l with
  | nil => cases ha
  | cons b bs ih =>
    rcases List.mem_cons.mp ha with h | h
    · subst h
      simp [mapO, hfa]
    · cases hfb : f b <;> simp [mapO, hfb, ih h]

theorem mapO_eq_filterMap {α β : Type} (f : α → Option β) (l : List α)
    (h : ∀ a ∈ l, (f a).isSome = true) :
    mapO f l = some (l.filterMap f) := by
  induction l with
  | nil => rfl
  | cons a as ih =>
    obtain ⟨b, hb⟩ := Option.isSome_iff_exists.mp (h a (by simp))
    have ih2 := ih (fun x hx => h x (by simp [hx]))
    simp [mapO, hb, ih2, List.filterMap_cons]

theorem length_filterMap_of_isSome {α β : Type} (f : α → Option β)
    (l : List α) (h : ∀ a ∈ l, (f a).isSome = true) :
    (l.filterMap f).length = l.length := by
  induction l with
  | nil => rfl
  | cons a as ih =>
    obtain ⟨b, hb⟩ := Option.isSome_iff_exists.mp (h a (by simp))
    have ih2 := ih (fun x hx => h x (by simp [hx]))
    simp [List.filterMap_cons, hb, ih2]

theorem closed_world_spec (tasks : TaskMap) (h : closed_world tasks = true) :
    ∀ t ∈ tasks, ∀ d ∈ t.blocked_by, (lookupTask tasks d).isSome = true := by
  intro t ht d hd
  exact List.all_eq_true.mp ((List.all_eq_true.mp h) t ht) d hd

theorem is_blocked_check_eq (tasks : TaskMap) (bb : List String)
    (h : ∀ d ∈ bb, (lookupTask tasks d).isSome = true) :
    is_blocked_check tasks bb = some (bb.any (dep_incomplete tasks)) := by
  induction bb with
  | nil => rfl
  | cons d rest ih =>
    obtain ⟨u, hu⟩ := Option.isSome_iff_exists.mp (h d (by simp))
    have ih2 := ih (fun x hx => h x (by simp [hx]))
    cases hc : u.is_completed <;>
      simp [is_blocked_check, hu, hc, ih2, dep_incomplete]

theorem graphviz_render_node_eq (tasks : TaskMap) (t : Task)
    (h : ∀ d ∈ t.blocked_by, (lookupTask tasks d).isSome = true) :
    Graphviz.render_node t tasks =
      some (Graphviz.node_line t (is_blocked_of tasks t)) := by
  unfold Graphviz.render_node
  rw [is_blocked_check_eq tasks t.blocked_by h]
  rfl

theorem mermaid_render_node_eq (tasks : TaskMap) (t : Task)
    (h : ∀ d ∈ t.blocked_by, (lookupTask tasks d).isSome = true) :
    Mermaid.render_node t tasks =
      some (Mermaid.node_block t (is_blocked_of tasks t)) := by
  unfold Mermaid.render_node
  rw [is_blocked_check_eq tasks t.blocked_by h]
  rfl

theorem edge_mapO_eq (tasks : TaskMap) (re : Task → Task → String) (t : Task)
    (h : ∀ d ∈ t.blocked_by, (lookupTask tasks d).isSome = true) :
    mapO (fun d => (lookupTask tasks d).map (fun dep => re dep t))
        t.blocked_by =
      some (t.blocked_by.filterMap
        (fun d => (lookupTask tasks d).map (fun dep => re dep t))) := by
  apply mapO_eq_filterMap
  intro d hd
  obtain ⟨u, hu⟩ := Option.isSome_iff_exists.mp (h d hd)
  simp [hu]

theorem edges_mapO_eq (tasks : TaskMap) (re : Task → Task → String)
    (h : closed_world tasks = true) :
    mapO (fun t => mapO
        (fun d => (lookupTask tasks d).map (fun dep => re dep t))
        t.blocked_by) tasks =
      some (tasks.map (fun t => t.blocked_by.filterMap
        (fun d => (lookupTask tasks d).map (fun dep => re dep t)))) := by
  apply mapO_eq_map
  intro t ht
  exact edge_mapO_eq tasks re t (closed_world_spec tasks h t ht)

theorem edge_lines_length (l : List Task) (tasks : TaskMap)
    (re : Task → Task → String)
    (h : ∀ t ∈ l, ∀ d ∈ t.blocked_by, (lookupTask tasks d).isSome = true) :
    ((l.map (fun t => t.blocked_by.filterMap
        (fun d => (lookupTask tasks d).map
          (fun dep => re dep t)))).flatten).length =
      (l.map (fun t => t.blocked_by.length)).sum := by
  rw [List.length_flatten, List.map_map]
  have : ∀ t ∈ l,
      (List.length ∘ fun t => t.blocked_by.filterMap
        (fun d => (lookupTask tasks d).map (fun dep => re dep t))) t =
      (fun t : Task => t.blocked_by.length) t := by
    intro t ht
    have : ∀ d ∈ t.blocked_by,
        ((lookupTask tasks d).map (fun dep => re dep t)).isSome = true := by
      intro d hd
      obtain ⟨u, hu⟩ := Option.isSome_iff_exists.mp (h t ht d hd)
      simp [hu]
    exact length_filterMap_of_isSome _ _ this
  rw [List.map_congr_left this]

theorem mermaid_node_block_length (t : Task) (ib : Bool) :
    (Mermaid.node_block t ib).length =
      1 + (if (Mermaid.node_style t ib).isEmpty then 0 else 1) := by
  cases h : (Mermaid.node_style t ib).isEmpty <;>
    simp [Mermaid.node_block, h]

theorem mermaid_node_blocks_length (l : List Task) (g : Task → Bool) :
    ((l.map (fun t => Mermaid.node_block t (g t))).flatten).length =
      l.length + (l.map (fun t =>
        if (Mermaid.node_style t (g t)).isEmpty then 0 else 1)).sum := by
  induction l with
  | nil => rfl
  | cons a as ih =>
    simp only [List.map_cons, List.flatten_cons, List.length_append, ih,
      List.length_cons, List.sum_cons, mermaid_node_block_length]
    omega

theorem graphviz_build_eq (tasks : TaskMap) (h : closed_world tasks = true) :
    Graphviz.build_graph_lines tasks =
      some (Graphviz.expected_output tasks) := by
  have hn := mapO_eq_map (fun t => Graphviz.render_node t tasks)
    (fun t => Graphviz.node_line t (is_blocked_of tasks t)) tasks
    (fun t ht => graphviz_render_node_eq tasks t (closed_world_spec tasks h t ht))
  have he := edges_mapO_eq tasks Graphviz.render_edge h
  simp [Graphviz.build_graph_lines, hn, he, Graphviz.expected_output,
    Graphviz.edge_lines]

theorem mermaid_build_eq (tasks : TaskMap) (h : closed_world tasks = true) :
    Mermaid.build_graph_lines tasks =
      some (Mermaid.expected_output tasks) := by
  have hn := mapO_eq_map (fun t => Mermaid.render_node t tasks)
    (fun t => Mermaid.node_block t (is_blocked_of tasks t)) tasks
    (fun t ht => mermaid_render_node_eq tasks t (closed_world_spec tasks h t ht))
  have he := edges_mapO_eq tasks Mermaid.render_edge h
  simp [Mermaid.build_graph_lines, hn, he, Mermaid.expected_output,
    Mermaid.edge_lines]

/-! The claims. -/

/-- Claim C1, counterexample: on a collection where task `D`'s `blocked_by`
references the absent id `Z`, neither renderer yields any output: both
abort on the unhandled dict lookup (`KeyError`), so "the core must not
crash" is false of the code. -/
theorem dangling_reference_counterexample :
    (Graphviz.build_graph_lines [tD]).isSome = false ∧
    (Mermaid.build_graph_lines [tD]).isSome = false := by
  exact ⟨rfl, rfl⟩

/-- Claim C1, amended: whenever some task's `blocked_by` references an id
absent from the collection, both renderers crash with an unhandled lookup
failure (modelled `none`): they neither complete, nor skip the edge, nor
produce a descriptive error. -/
theorem dangling_reference_crashes (tasks : TaskMap)
    (h : ∃ t, t ∈ tasks ∧ ∃ d, d ∈ t.blocked_by ∧
      lookupTask tasks d = none) :
    Graphviz.build_graph_lines tasks = none ∧
    Mermaid.build_graph_lines tasks = none := by
  obtain ⟨t, ht, d, hd, hnone⟩ := h
  have hG : mapO (fun t => mapO
      (fun d => (lookupTask tasks d).map
        (fun dep => Graphviz.render_edge dep t)) t.blocked_by) tasks =
      none :=
    mapO_eq_none _ _ t ht (mapO_eq_none _ _ d hd (by simp [hnone]))
  have hM : mapO (fun t => mapO
      (fun d => (lookupTask tasks d).map
        (fun dep => Mermaid.render_edge dep t)) t.blocked_by) tasks =
      none :=
    mapO_eq_none _ _ t ht (mapO_eq_none _ _ d hd (by simp [hnone]))
  constructor
  · unfold Graphviz.build_graph_lines
    cases hn : mapO (fun t => Graphviz.render_node t tasks) tasks <;>
      simp [hn, hG]
  · unfold Mermaid.build_graph_lines
    cases hn : mapO (fun t => Mermaid.render_node t tasks) tasks <;>
      simp [hn, hM]

/-- Claim C1, witness: the amended theorem applied to the concrete
collection `[tD]`, whose single task references the absent id `Z`. -/
theorem dangling_reference_crashes_witness :
    Graphviz.build_graph_lines [tD] = none ∧
    Mermaid.build_graph_lines [tD] = none :=
  dangling_reference_crashes [tD] ⟨tD, by decide, "Z", by decide, by decide⟩

/-- Claim C2, counterexample: on the one-task collection `[tA]` the Mermaid
output has 3 lines (header, node line, style line) while the claimed count
`#tasks + #style lines + #dependency edges` is 2: the formula omits the
header line. -/
theorem mermaid_line_count_counterexample :
    Mermaid.build_graph_lines [tA] =
      some ["flowchart TB", "A([\"`fa:fa-check A`\"])",
        "style A stroke:none,fill:none;"] ∧
    ((Mermaid.build_graph_lines [tA]).map List.length ==
      some (numTasks [tA] + styleCount [tA] + numEdges [tA])) = false := by
  exact ⟨rfl, rfl⟩

/-- Claim C2, amended: under the closed-world invariant the Mermaid output
is the header line followed by, per task in collection order, the node line
immediately followed by its optional style line, followed by the edge lines
in nested iteration order (no closing line); the line count is
`1 + #tasks + #style lines + #dependency edges` (the header adds 1 to the
claimed formula). -/
theorem mermaid_output_structure (tasks : TaskMap)
    (h : closed_world tasks = true) :
    Mermaid.build_graph_lines tasks = some (Mermaid.expected_output tasks) ∧
    (Mermaid.expected_output tasks).head? = some "flowchart TB" ∧
    (Mermaid.expected_output tasks).length =
      1 + numTasks tasks + styleCount tasks + numEdges tasks := by
  refine ⟨mermaid_build_eq tasks h, rfl, ?_⟩
  have hb := mermaid_node_blocks_length tasks (is_blocked_of tasks)
  have he := edge_lines_length tasks tasks Mermaid.render_edge
    (closed_world_spec tasks h)
  simp only [Mermaid.expected_output, Mermaid.edge_lines, List.length_cons,
    List.length_append, hb, he]
  unfold numTasks styleCount numEdges
  omega

/-- Claim C2, witness: the amended theorem applied to the concrete closed
collection `[tA, tB]`. -/
theorem mermaid_output_structure_witness :
    Mermaid.build_graph_lines [tA, tB] =
      some (Mermaid.expected_output [tA, tB]) ∧
    (Mermaid.expected_output [tA, tB]).head? = some "flowchart TB" ∧
    (Mermaid.expected_output [tA, tB]).length =
      1 + numTasks [tA, tB] + styleCount [tA, tB] + numEdges [tA, tB] :=
  mermaid_output_structure [tA, tB] (by decide)

/-- Claim C4: under the closed-world invariant the Graphviz output is the
opening line, one node line per task in collection order, one edge line per
`(task, blocked_by entry)` pair in nested iteration order, and the closing
line; it begins with `digraph` + brace, ends with the closing brace, and
has `2 + #tasks + #dependency edges` lines. -/
theorem graphviz_output_structure (tasks : TaskMap)
    (h : closed_world tasks = true) :
    Graphviz.build_graph_lines tasks =
      some (Graphviz.expected_output tasks) ∧
    (Graphviz.expected_output tasks).head? = some "digraph\x7b" ∧
    (Graphviz.expected_output tasks).getLast? = some "\x7d" ∧
    (Graphviz.expected_output tasks).length =
      2 + numTasks tasks + numEdges tasks := by
  refine ⟨graphviz_build_eq tasks h, rfl, ?_, ?_⟩
  · have hsplit : Graphviz.expected_output tasks =
        ("digraph\x7b" ::
          (tasks.map (fun t => Graphviz.node_line t (is_blocked_of tasks t)) ++
           Graphviz.edge_lines tasks)) ++ ["\x7d"] := by
      simp [Graphviz.expected_output]
    rw [hsplit, List.getLast?_concat]
  · have he := edge_lines_length tasks tasks Graphviz.render_edge
      (closed_world_spec tasks h)
    simp only [Graphviz.expected_output, Graphviz.edge_lines,
      List.length_cons, List.length_append, List.length_map, he,
      List.length_nil]
    unfold numTasks numEdges
    omega

/-- Claim C4, witness: the theorem applied to the concrete closed
collection `[tA, tB, tM, tCM]`. -/
theorem graphviz_output_structure_witness :
    Graphviz.build_graph_lines [tA, tB, tM, tCM] =
      some (Graphviz.expected_output [tA, tB, tM, tCM]) ∧
    (Graphviz.expected_output [tA, tB, tM, tCM]).head? =
      some "digraph\x7b" ∧
    (Graphviz.expected_output [tA, tB, tM, tCM]).getLast? = some "\x7d" ∧
    (Graphviz.expected_output [tA, tB, tM, tCM]).length =
      2 + numTasks [tA, tB, tM, tCM] + numEdges [tA, tB, tM, tCM] :=
  graphviz_output_structure [tA, tB, tM, tCM] (by decide)

/-- Claim C8: both renderers are deterministic functions of the task
collection: two renderings of the same collection yield identical output
line sequences. -/
theorem rendering_deterministic (tasks : TaskMap) (g1 g2 m1 m2 : List String)
    (h1 : Graphviz.build_graph_lines tasks = some g1)
    (h2 : Graphviz.build_graph_lines tasks = some g2)
    (h3 : Mermaid.build_graph_lines tasks = some m1)
    (h4 : Mermaid.build_graph_lines tasks = some m2) :
    g1 = g2 ∧ m1 = m2 := by
  constructor
  · rw [h1] at h2
    injection h2
  · rw [h3] at h4
    injection h4

/-- Claim C8, witness: the theorem applied to the concrete collection
`[tA, tB]`, whose renderings are computed by `decide`. -/
theorem rendering_deterministic_witness :
    Graphviz.expected_output [tA, tB] = Graphviz.expected_output [tA, tB] ∧
    Mermaid.expected_output [tA, tB] = Mermaid.expected_output [tA, tB] :=
  rendering_deterministic [tA, tB]
    (Graphviz.expected_output [tA, tB]) (Graphviz.expected_output [tA, tB])
    (Mermaid.expected_output [tA, tB]) (Mermaid.expected_output [tA, tB])
    (by decide) (by decide) (by decide) (by decide)

/-- Claim C3, counterexample: the completed non-milestone task `tA` emits
the style directive `style A stroke:none,fill:none;` — its stroke is
`none`, not the muted completed color `lightgray`, so "for every completed
task the directive sets the stroke to the muted completed color" is false
of the emitted directive. -/
theorem mermaid_completed_stroke_counterexample :
    tA.is_completed = true ∧
    Mermaid.render_node tA [tA] =
      some ["A([\"`fa:fa-check A`\"])", "style A stroke:none,fill:none;"] ∧
    (dictGet (Mermaid.node_style tA (is_blocked_of [tA] tA)) "stroke" ==
      some Mermaid.COMPLETED_COLOR) = false := by
  exact ⟨rfl, rfl, rfl⟩

/-- Claim C3, amended: in the emitted Mermaid style dict the initial muted
completed stroke is always superseded: a milestone's final stroke is the
milestone accent (with fill `none` when completed, else the highlight fill
and the 4px border — for any non-completed milestone, ready or blocked); a
completed non-milestone ends with stroke and fill both `none`; a ready
non-milestone has only the 2px border; a blocked non-milestone has an
empty style dict (no style line). -/
theorem mermaid_style_rules (t : Task) (ib : Bool) :
    dictGet (Mermaid.node_style t ib) "stroke" =
      (if t.is_milestone then some "darkgreen"
       else if t.is_completed then some "none" else none) ∧
    dictGet (Mermaid.node_style t ib) "fill" =
      (if t.is_milestone then
        (if t.is_completed then some "none" else some "darkseagreen")
       else if t.is_completed then some "none" else none) ∧
    dictGet (Mermaid.node_style t ib) "stroke-width" =
      (if t.is_milestone && !t.is_completed then some "4px"
       else if !t.is_completed && !ib then some "2px" else none) ∧
    (Mermaid.node_style t ib).isEmpty =
      (!t.is_completed && ib && !t.is_milestone) := by
  obtain ⟨i, n, bb, ms, c⟩ := t
  cases c <;> cases ms <;> cases ib <;> exact ⟨rfl, rfl, rfl, rfl⟩

/-- Claim C5: exactly one of the classifications completed, ready, blocked
holds for every task (with completion checked first), and both renderers'
label markup follows the classification: struck-through, bold or plain
quoted for Graphviz; check icon, bold or hourglass icon for Mermaid. -/
theorem classification_exclusive (tasks : TaskMap) (t : Task) :
    ((if statusCompleted t then 1 else 0) +
     (if statusReady tasks t then 1 else 0) +
     (if statusBlocked tasks t then 1 else 0) = 1) ∧
    dictGet (Graphviz.node_attrs t (is_blocked_of tasks t)) "label" =
      some (if statusCompleted t then "<<S>" ++ sanitize t.name ++ "</S>>"
        else if statusReady tasks t then "<<B>" ++ sanitize t.name ++ "</B>>"
        else "\"" ++ sanitize t.name ++ "\"") ∧
    Mermaid.node_label t (is_blocked_of tasks t) =
      (if statusCompleted t then "fa:fa-check " ++ sanitize t.name
       else if statusReady tasks t then "**" ++ sanitize t.name ++ "**"
       else "far:fa-hourglass " ++ sanitize t.name) := by
  obtain ⟨i, n, bb, ms, c⟩ := t
  have key : ∀ b : Bool,
      ((if c then 1 else 0) + (if !c && !b then 1 else 0) +
        (if !c && b then 1 else 0) = 1) ∧
      dictGet (Graphviz.node_attrs ⟨i, n, bb, ms, c⟩ b) "label" =
        some (if c then "<<S>" ++ sanitize n ++ "</S>>"
          else if !c && !b then "<<B>" ++ sanitize n ++ "</B>>"
          else "\"" ++ sanitize n ++ "\"") ∧
      Mermaid.node_label ⟨i, n, bb, ms, c⟩ b =
        (if c then "fa:fa-check " ++ sanitize n
         else if !c && !b then "**" ++ sanitize n ++ "**"
         else "far:fa-hourglass " ++ sanitize n) := by
    intro b
    cases c <;> cases ms <;> cases b <;> exact ⟨rfl, rfl, rfl⟩
  exact key (is_blocked_of tasks ⟨i, n, bb, ms, c⟩)

/-- Claim C6: a task with an empty `blocked_by` list is never blocked
(ready regardless of its other flags), and in general the code's
`is_blocked` computation reports not-blocked (ready) exactly when every id
in `blocked_by` maps to a task of the collection with `is_completed`
true. -/
theorem readiness_spec (tasks : TaskMap) (bb : List String) :
    is_blocked_check tasks [] = some false ∧
    (is_blocked_check tasks bb = some false ↔
      ∀ d ∈ bb, ∃ u, lookupTask tasks d = some u ∧ u.is_completed = true) := by
  refine ⟨rfl, ?_⟩
  induction bb with
  | nil => simp [is_blocked_check]
  | cons d rest ih =>
    cases hu : lookupTask tasks d with
    | none =>
      have hl : is_blocked_check tasks (d :: rest) = none := by
        simp [is_blocked_check, hu]
      rw [hl]
      constructor
      · intro h
        simp at h
      · intro h
        obtain ⟨u, hu2, _⟩ := h d (by simp)
        rw [hu] at hu2
        cases hu2
    | some u =>
      cases hc : u.is_completed
      · have hl : is_blocked_check tasks (d :: rest) = some true := by
          simp [is_blocked_check, hu, hc]
        rw [hl]
        constructor
        · intro h
          simp at h
        · intro h
          obtain ⟨u2, hu2, hc2⟩ := h d (by simp)
          rw [hu] at hu2
          injection hu2 with e
          subst e
          rw [hc] at hc2
          cases hc2
      · have hl : is_blocked_check tasks (d :: rest) =
            is_blocked_check tasks rest := by
          simp [is_blocked_check, hu, hc]
        rw [hl, ih]
        constructor
        · intro h d2 hd2
          rcases List.mem_cons.mp hd2 with e | e
          · subst e
            exact ⟨u, hu, hc⟩
          · exact h d2 e
        · intro h d2 hd2
          exact h d2 (by simp [hd2])

/-- Claim C7: a Graphviz edge line runs from the predecessor (blocking
task) to the dependent task and carries `color=gray` exactly when the
predecessor is completed (otherwise the attribute list is empty); on the
concrete collection of completed `tA` and dependent `tB` the output
contains the completed-colored edge from `A` to `B`. -/
theorem graphviz_edge_rule :
    (∀ s e : Task, Graphviz.render_edge s e =
      s.id ++ " -> " ++ e.id ++ " [" ++
        (if s.is_completed then "color=gray" else "") ++ "];") ∧
    "A -> B [color=gray];" ∈ (Graphviz.build_graph_lines [tA, tB]).getD [] := by
  constructor
  · intro s e
    obtain ⟨i, n, bb, ms, c⟩ := s
    cases c <;> rfl
  · decide

/-- Claim C9: the quote sanitization applied to task names is idempotent,
and a sanitized name contains no double-quote character. -/
theorem sanitize_idempotent (s : String) :
    sanitize (sanitize s) = sanitize s ∧
    ((sanitize s).data.all (fun c => !(c == '"'))) = true := by
  constructor
  · show (⟨((s.data.map fun c => if c == '"' then Char.ofNat 39 else c).map
        fun c => if c == '"' then Char.ofNat 39 else c)⟩ : String) = _
    rw [List.map_map]
    congr 1
    apply List.map_congr_left
    intro a _
    cases h : a == '"' <;> simp [Function.comp, h]
  · rw [List.all_eq_true]
    intro c hc
    obtain ⟨a, _, rfl⟩ := List.mem_map.mp hc
    cases h : a == '"' <;> simp [h]

/-- Claim C10: the Graphviz attribute dict has `style=rounded` exactly when
the task is not a completed milestone; a completed milestone instead has
`style=filled` (replacing, not joined with, `rounded`) together with
`fillcolor=darkgreen` and `fontcolor=gray`; and the shape attribute is
`hexagon` exactly for milestones, else `box`. -/
theorem graphviz_node_attr_rules (t : Task) (ib : Bool) :
    dictGet (Graphviz.node_attrs t ib) "style" =
      some (if t.is_completed && t.is_milestone then "filled"
        else "rounded") ∧
    dictGet (Graphviz.node_attrs t ib) "fillcolor" =
      (if t.is_completed && t.is_milestone then some "darkgreen"
       else none) ∧
    dictGet (Graphviz.node_attrs t ib) "fontcolor" =
      (if t.is_milestone then
        (if t.is_completed then some "gray" else some "darkgreen")
       else if t.is_completed then some "gray" else none) ∧
    dictGet (Graphviz.node_attrs t ib) "shape" =
      some (if t.is_milestone then "hexagon" else "box") := by
  obtain ⟨i, n, bb, ms, c⟩ := t
  cases c <;> cases ms <;> cases ib <;> exact ⟨rfl, rfl, rfl, rfl⟩

end AsanaDeps
